import Mathlib

/-!
Shallow embedding of the ChessWiz Practice Session State Machine.

The repository contains two near-identical implementations of the trainer
component (`src/unnamed/part_002` and `src/unnamed/part_003`).  Both are
React components whose decision logic reads and writes a fixed set of
state fields and delegates chess legality to a `chess.js` engine instance.

We model:
  * the `chess.js` engine instance (`Game`): a current FEN plus the undo
    history; legality itself is external, so the move functions are
    parameterised by an abstract `Oracle` (the chess-rules capability);
  * the session state of each variant (`VariantA.Session` for
    `part_002`, `VariantB.Session` for `part_003`) with the source's
    field names;
  * every handler the claims reference, as a pure state-transition
    function; an asynchronous handler (`startVariationPractice`) is split
    into its synchronous part before the `await` and the completion
    handler applied to the fetch result, so interleavings of overlapping
    invocations can be expressed.
-/

namespace ChessWiz

/-- `chess.js` result of `fen()` right after `new Chess()` / `reset()`. -/
def startFen : String := "rnbqkbnr/pppppppp/8/8/8/8/PPPPPPPP/RNBQKBNR w KQkq - 0 1"

/-- Abstract chess-rules capability (external collaborator): given the
current FEN and a move, report whether it is legal and if so the SAN and
the resulting FEN.  `tryMoveFromTo` models `game.move({from, to, promotion: "q"})`,
`tryMoveSan` models `game.move(san)`; both return `none` when `chess.js`
would return `null`. -/
structure Oracle where
  tryMoveFromTo : String → String → String → Option (String × String)
  tryMoveSan : String → String → Option String

/-- A `chess.js` engine instance: current FEN plus the undo history
(previous FENs, most recent first). -/
structure Game where
  fen : String
  history : List String
deriving DecidableEq, Repr

/-- `new Chess()` / `game.reset()`: initial position, empty history. -/
def Game.reset : Game := { fen := startFen, history := [] }

/-- `game.move({from, to, promotion: "q"})`: on success the old position is
pushed onto the history; on failure (`null`) the engine is unchanged. -/
def Game.moveFT (o : Oracle) (g : Game) (source target : String) :
    Option (String × Game) :=
  match o.tryMoveFromTo g.fen source target with
  | none => none
  | some (san, f2) => some (san, { fen := f2, history := g.fen :: g.history })

/-- `game.move(san)` for a SAN string. -/
def Game.moveSan (o : Oracle) (g : Game) (san : String) : Option Game :=
  match o.tryMoveSan g.fen san with
  | none => none
  | some f2 => some { fen := f2, history := g.fen :: g.history }

/-- `game.undo()`: pop the most recent position; `null` (no change) on an
empty history. -/
def Game.undo (g : Game) : Game :=
  match g.history with
  | [] => g
  | h :: t => { fen := h, history := t }

/-- `game.load(fen)`: replace the position and clear the history. -/
def Game.load (_g : Game) (f : String) : Game :=
  { fen := f, history := [] }

/-- JS `String.prototype.toLowerCase()` as used on ASCII SAN strings:
lowercase every character. -/
def lowerStr (s : String) : String := String.mk (s.data.map Char.toLower)

/-- The drop directive reported back to `chessboard-element`: the handlers
call `setAction("snapback")` to reject a drop; otherwise it stands. -/
inductive Directive where
  | accept
  | snapback
deriving DecidableEq, Repr

/-- Result of the `fetch` in `startVariationPractice`:
`httpError` is `!resp.ok`, `malformed` a JSON body that is not an array
(`!Array.isArray(movesData)`), `failure` a thrown network error, and
`ok moves` a well-formed SAN array. -/
inductive FetchResult where
  | httpError
  | malformed
  | failure
  | ok (moves : List String)
deriving DecidableEq, Repr

namespace VariantA

/-- Session state of the `part_002` variant: the React `useState` fields
that the practice logic reads or writes, plus the `chess.js` instance. -/
structure Session where
  currentOpeningId : Option String
  currentVariationName : Option String
  currentMoves : List String
  currentIndex : Nat
  feedback : String
  wrongMove : Bool
  boardPosition : String
  lastFen : String
  lastFenIndex : Nat
  game : Game
deriving DecidableEq, Repr

/-- The state created on mount: `new Chess()`, empty moves, index 0. -/
def initialSession : Session :=
  { currentOpeningId := none, currentVariationName := none,
    currentMoves := [], currentIndex := 0, feedback := "",
    wrongMove := false, boardPosition := "start",
    lastFen := "start", lastFenIndex := 0, game := Game.reset }

/-- `handlePieceDrop` of `part_002` (lines 70-130).  Returns the directive
(`snapback` iff the code calls `setAction("snapback")`) and the new state. -/
def handlePieceDrop (o : Oracle) (s : Session) (source target : String) :
    Directive × Session :=
  if s.currentMoves.length = 0 then
    match Game.moveFT o s.game source target with
    | none => (Directive.snapback, { s with feedback := "Illegal move (freeplay)." })
    | some (_, g2) =>
        (Directive.accept,
          { s with game := g2, boardPosition := g2.fen,
                   feedback := "Freeplay move recorded." })
  else if s.currentMoves.length ≤ s.currentIndex then
    (Directive.snapback, { s with feedback := "No more moves in this variation." })
  else
    let beforeFen := s.game.fen
    match Game.moveFT o s.game source target with
    | none => (Directive.snapback, { s with feedback := "Illegal move!" })
    | some (san, g2) =>
        let userMove := lowerStr san
        let correctNext := (s.currentMoves.get? s.currentIndex).map lowerStr
        if correctNext = some userMove then
          let newFen := g2.fen
          (Directive.accept,
            { s with feedback := "Good job! Move: " ++ userMove,
                     wrongMove := false, game := g2, boardPosition := newFen,
                     lastFen := newFen, lastFenIndex := s.currentIndex + 1,
                     currentIndex := s.currentIndex + 1 })
        else
          (Directive.snapback,
            { s with game := Game.load g2 beforeFen, boardPosition := beforeFen,
                     feedback := "Wrong move!", wrongMove := true })

/-- Synchronous part of `startVariationPractice` of `part_002`
(lines 178-192), executed before the `await fetch`. -/
def startVariationPracticeBegin (s : Session) (openingId variationName : String) :
    Session :=
  { s with feedback := "Loading moves for " ++ variationName ++ "...",
           currentOpeningId := some openingId,
           currentVariationName := some variationName,
           currentMoves := [], currentIndex := 0, wrongMove := false,
           lastFen := "start", lastFenIndex := 0,
           game := Game.reset, boardPosition := "start" }

/-- Completion handler of `startVariationPractice` of `part_002`
(lines 194-210), applied when its fetch resolves. -/
def startVariationPracticeComplete (s : Session) (r : FetchResult) : Session :=
  match r with
  | FetchResult.httpError => { s with feedback := "Error loading variation moves." }
  | FetchResult.malformed => { s with feedback := "Invalid variation data." }
  | FetchResult.failure => { s with feedback := "Error fetching variation data." }
  | FetchResult.ok movesData =>
      { s with currentMoves := movesData,
               feedback := "Variation loaded. Make the first move!" }

/-- `startVariationPractice` of `part_002` run without interleaving:
the synchronous part followed immediately by its own completion. -/
def startVariationPractice (s : Session) (openingId variationName : String)
    (r : FetchResult) : Session :=
  startVariationPracticeComplete (startVariationPracticeBegin s openingId variationName) r

/-- `handlePrevMove` of `part_002` (lines 216-229). -/
def handlePrevMove (s : Session) : Session :=
  if s.currentMoves.length = 0 then { s with feedback := "No moves to step back." }
  else if s.currentIndex = 0 then { s with feedback := "Already at the first move!" }
  else
    let g2 := s.game.undo
    { s with game := g2, boardPosition := g2.fen,
             currentIndex := s.currentIndex - 1,
             feedback := "Stepped back one move." }

/-- `handleNextMove` of `part_002` (lines 231-249). -/
def handleNextMove (o : Oracle) (s : Session) : Session :=
  if s.currentMoves.length = 0 then { s with feedback := "No moves to step forward." }
  else if s.currentMoves.length ≤ s.currentIndex then
    { s with feedback := "Already at the last move." }
  else
    let nextMoveSAN := s.currentMoves.getD s.currentIndex ""
    match Game.moveSan o s.game nextMoveSAN with
    | none => { s with feedback := "Invalid move sequence? Could not apply next move." }
    | some g2 =>
        { s with game := g2, boardPosition := g2.fen,
                 currentIndex := s.currentIndex + 1,
                 feedback := "Forward move: " ++ nextMoveSAN }

/-- `handleResetToLastPosition` of `part_002` (lines 254-270). -/
def handleResetToLastPosition (s : Session) : Session :=
  if s.lastFenIndex = 0 then
    { s with game := Game.reset, boardPosition := "start", currentIndex := 0,
             wrongMove := false,
             feedback := "No correct move to reset to. Board reset to start." }
  else
    { s with game := Game.load s.game s.lastFen, boardPosition := s.lastFen,
             currentIndex := s.lastFenIndex, wrongMove := false,
             feedback := "Reset to last correct move." }

/-- `handleResetBoard` of `part_002` (lines 275-291). -/
def handleResetBoard (s : Session) : Session :=
  if 0 < s.currentMoves.length then
    { s with game := Game.reset, boardPosition := "start",
             lastFen := "start", lastFenIndex := 0, wrongMove := false,
             currentIndex := 0,
             feedback := "Board reset for this variation. Move #1." }
  else
    { s with game := Game.reset, boardPosition := "start",
             feedback := "Board reset in free-play mode." }

/-- `enterFreeplayMode` of `part_002` (lines 296-310). -/
def enterFreeplayMode (s : Session) : Session :=
  { s with feedback := "Switched to freeplay mode.",
           currentOpeningId := none, currentVariationName := none,
           currentMoves := [], currentIndex := 0, wrongMove := false,
           game := Game.reset, boardPosition := "start",
           lastFen := "start", lastFenIndex := 0 }

end VariantA

namespace VariantB

/-- Session state of the `part_003` variant: same fields as `part_002`
except that it has no `lastFenIndex` state. -/
structure Session where
  currentOpeningId : Option String
  currentVariationName : Option String
  currentMoves : List String
  currentIndex : Nat
  feedback : String
  wrongMove : Bool
  lastFen : String
  boardPosition : String
  game : Game
deriving DecidableEq, Repr

/-- The state created on mount of the `part_003` variant. -/
def initialSession : Session :=
  { currentOpeningId := none, currentVariationName := none,
    currentMoves := [], currentIndex := 0, feedback := "",
    wrongMove := false, lastFen := "start", boardPosition := "start",
    game := Game.reset }

/-- `handlePieceDrop` of `part_003` (lines 138-175).  In the wrong-move
branch the code calls `setAction("snapback")` but never reverts the
`chess.js` engine: the applied move stays on `game`. -/
def handlePieceDrop (o : Oracle) (s : Session) (source target : String) :
    Directive × Session :=
  if s.currentMoves.length = 0 then
    match Game.moveFT o s.game source target with
    | none => (Directive.snapback, s)
    | some (_, g2) =>
        (Directive.accept, { s with game := g2, boardPosition := g2.fen })
  else
    match Game.moveFT o s.game source target with
    | none => (Directive.snapback, s)
    | some (san, g2) =>
        let userMove := lowerStr san
        let correctNext := (s.currentMoves.get? s.currentIndex).map lowerStr
        if correctNext = some userMove then
          (Directive.accept,
            { s with feedback := "Good job! Move: " ++ userMove,
                     wrongMove := false, game := g2,
                     lastFen := g2.fen, boardPosition := g2.fen,
                     currentIndex := s.currentIndex + 1 })
        else
          (Directive.snapback,
            { s with game := g2, feedback := "Wrong move!", wrongMove := true })

/-- Synchronous part of `startVariationPractice` of `part_003`
(lines 103-113), executed before the `await fetch`. -/
def startVariationPracticeBegin (s : Session) (openingId variationName : String) :
    Session :=
  { s with currentOpeningId := some openingId,
           currentVariationName := some variationName,
           currentIndex := 0, currentMoves := [], feedback := "",
           wrongMove := false, game := Game.reset,
           boardPosition := "start", lastFen := "start" }

/-- Completion handler of `startVariationPractice` of `part_003`
(lines 115-131), applied when its fetch resolves. -/
def startVariationPracticeComplete (s : Session) (r : FetchResult) : Session :=
  match r with
  | FetchResult.httpError => { s with feedback := "Error loading variation moves." }
  | FetchResult.malformed => { s with feedback := "Invalid variation data." }
  | FetchResult.failure => { s with feedback := "Error fetching variation data." }
  | FetchResult.ok movesData =>
      { s with currentMoves := movesData,
               feedback := "Variation loaded. Make the first move!" }

/-- `startVariationPractice` of `part_003` run without interleaving. -/
def startVariationPractice (s : Session) (openingId variationName : String)
    (r : FetchResult) : Session :=
  startVariationPracticeComplete (startVariationPracticeBegin s openingId variationName) r

/-- `handleResetToLastPosition` of `part_003` (lines 178-183): always loads
the stored `lastFen` literally, with no index-0 fallback and no index update. -/
def handleResetToLastPosition (s : Session) : Session :=
  { s with game := Game.load s.game s.lastFen, boardPosition := s.lastFen,
           feedback := "Reset to last correct move.", wrongMove := false }

/-- `handleResetBoard` of `part_003` (lines 186-201). -/
def handleResetBoard (s : Session) : Session :=
  if 0 < s.currentMoves.length then
    { s with game := Game.reset, boardPosition := "start", lastFen := "start",
             wrongMove := false, currentIndex := 0,
             feedback := "Board reset for this opening. Move #1." }
  else
    { s with game := Game.reset, boardPosition := "start",
             feedback := "Board reset in free-play mode." }

/-- `enterFreeplayMode` of `part_003` (lines 204-216). -/
def enterFreeplayMode (s : Session) : Session :=
  { s with feedback := "Switched to freeplay mode.",
           currentOpeningId := none, currentVariationName := none,
           currentMoves := [], currentIndex := 0, wrongMove := false,
           lastFen := "start", game := Game.reset, boardPosition := "start" }

/-- `handleNextMove` of `part_003` (lines 219-232): the result of
`game.move` is never checked; the index is incremented and `lastFen`
recaptured even when the engine rejected the SAN. -/
def handleNextMove (o : Oracle) (s : Session) : Session :=
  if s.currentMoves.length = 0 then s
  else if s.currentIndex < s.currentMoves.length then
    let move := s.currentMoves.getD s.currentIndex ""
    let g2 := match Game.moveSan o s.game move with
              | none => s.game
              | some g3 => g3
    { s with game := g2, boardPosition := g2.fen,
             currentIndex := s.currentIndex + 1,
             feedback := "Forward move: " ++ move,
             wrongMove := false, lastFen := g2.fen }
  else { s with feedback := "End of variation!" }

/-- `handlePrevMove` of `part_003` (lines 235-247). -/
def handlePrevMove (s : Session) : Session :=
  if s.currentMoves.length = 0 then s
  else if s.currentIndex = 0 then { s with feedback := "Already at the start!" }
  else
    let g2 := s.game.undo
    { s with game := g2, boardPosition := g2.fen,
             currentIndex := s.currentIndex - 1,
             feedback := "Stepped back one move.",
             wrongMove := false, lastFen := g2.fen }

end VariantB

/-- Two overlapping `startVariationPractice` calls in `part_002`:
`startVariationPractice(idA, vnA)` is issued, then `startVariationPractice(idB, vnB)`
before the first fetch resolves; B's fetch resolves first (result `rB`),
and A's stale fetch resolves last (result `rA`).  Each call runs its
synchronous part eagerly and its completion handler when its own fetch
resolves; the code has no request token, so both completions run. -/
def VariantA.overlappedStart (s : VariantA.Session) (idA vnA : String)
    (rA : FetchResult) (idB vnB : String) (rB : FetchResult) : VariantA.Session :=
  VariantA.startVariationPracticeComplete
    (VariantA.startVariationPracticeComplete
      (VariantA.startVariationPracticeBegin
        (VariantA.startVariationPracticeBegin s idA vnA) idB vnB) rB) rA

/-- The progress invariant for the `part_002` state, strengthened with the
matching bound on `lastFenIndex` (needed because `handleResetToLastPosition`
copies `lastFenIndex` into `currentIndex`). -/
def VariantA.Inv (s : VariantA.Session) : Prop :=
  s.currentIndex ≤ s.currentMoves.length ∧ s.lastFenIndex ≤ s.currentMoves.length

instance (s : VariantA.Session) : Decidable (VariantA.Inv s) := by
  unfold VariantA.Inv; infer_instance

/-- The progress invariant for the `part_003` state (it has no `lastFenIndex`). -/
def VariantB.Inv (s : VariantB.Session) : Prop :=
  s.currentIndex ≤ s.currentMoves.length

instance (s : VariantB.Session) : Decidable (VariantB.Inv s) := by
  unfold VariantB.Inv; infer_instance

/-- FEN after 1.e4 from the initial position. -/
def fenE4 : String := "rnbqkbnr/pppppppp/8/8/4P3/8/PPPP1PPP/RNBQKBNR b KQkq e3 0 1"

/-- FEN after 1.d4 from the initial position. -/
def fenD4 : String := "rnbqkbnr/pppppppp/8/8/3P4/8/PPP1PPPP/RNBQKBNR b KQkq d3 0 1"

/-- FEN after 1.e4 e5. -/
def fenE4E5 : String := "rnbqkbnr/pppp1ppp/8/4p3/4P3/8/PPPP1PPP/RNBQKBNR w KQkq e6 0 2"

/-- A small concrete chess-rules capability used to evaluate the handlers
on concrete inputs: from the initial position it accepts e2-e4 (SAN `e4`)
and d2-d4 (SAN `d4`), and after 1.e4 it accepts e7-e5 (SAN `e5`). -/
def toyOracle : Oracle where
  tryMoveFromTo fen source target :=
    if fen == startFen && source == "e2" && target == "e4" then some ("e4", fenE4)
    else if fen == startFen && source == "d2" && target == "d4" then some ("d4", fenD4)
    else if fen == fenE4 && source == "e7" && target == "e5" then some ("e5", fenE4E5)
    else none
  tryMoveSan fen san :=
    if fen == startFen && san == "e4" then some fenE4
    else if fen == startFen && san == "d4" then some fenD4
    else if fen == fenE4 && san == "e5" then some fenE4E5
    else none

/-- C1, counterexample: after `startVariationPractice` ends in an HTTP
error the moves list is empty and the variation name still set, but a
subsequent legal drop (e2-e4) is ACCEPTED by the free-play branch of
`handlePieceDrop`, not rejected with a snapback as the claim states. -/
theorem C1_counterexample :
    (VariantA.startVariationPractice VariantA.initialSession "op1" "v1"
        FetchResult.httpError).currentMoves = [] ∧
    (VariantA.startVariationPractice VariantA.initialSession "op1" "v1"
        FetchResult.httpError).currentVariationName = some "v1" ∧
    (VariantA.handlePieceDrop toyOracle
        (VariantA.startVariationPractice VariantA.initialSession "op1" "v1"
          FetchResult.httpError) "e2" "e4").1 = Directive.accept := by
  decide

/-- C1 (amended): when `startVariationPractice`'s fetch fails, returns an
HTTP error, or returns a malformed (non-array) payload, the session keeps
`openingId`/`variationName` set with an empty moves list; from that state
`handlePieceDrop` takes the free-play branch, so a drop the oracle deems
legal is accepted as a free-play move and only an illegal drop snaps back. -/
theorem C1_fetchFailureLeavesFreeplayDrops (o : Oracle) (s0 : VariantA.Session)
    (opId vn : String) (r : FetchResult) (hr : ∀ ms, r ≠ FetchResult.ok ms)
    (s1 : VariantA.Session)
    (hs1 : s1 = VariantA.startVariationPractice s0 opId vn r) :
    s1.currentMoves = [] ∧ s1.currentOpeningId = some opId ∧
    s1.currentVariationName = some vn ∧
    (∀ source target, (Game.moveFT o s1.game source target).isSome →
      (VariantA.handlePieceDrop o s1 source target).1 = Directive.accept) ∧
    (∀ source target, Game.moveFT o s1.game source target = none →
      (VariantA.handlePieceDrop o s1 source target).1 = Directive.snapback) := by
  have hbase : s1.currentMoves = [] ∧ s1.currentOpeningId = some opId ∧
      s1.currentVariationName = some vn := by
    subst hs1
    cases r with
    | ok ms => exact absurd rfl (hr ms)
    | httpError => exact ⟨rfl, rfl, rfl⟩
    | malformed => exact ⟨rfl, rfl, rfl⟩
    | failure => exact ⟨rfl, rfl, rfl⟩
  refine ⟨hbase.1, hbase.2.1, hbase.2.2, ?_, ?_⟩
  · intro source target hsome
    cases hmt : Game.moveFT o s1.game source target with
    | none => rw [hmt] at hsome; simp at hsome
    | some p =>
        obtain ⟨san, g2⟩ := p
        unfold VariantA.handlePieceDrop
        rw [hbase.1]
        simp [hmt]
  · intro source target hnone
    unfold VariantA.handlePieceDrop
    rw [hbase.1]
    simp [hnone]

/-- C1, witness for the amended theorem at a concrete failed fetch. -/
theorem C1_witness :
    (∀ ms, FetchResult.httpError ≠ FetchResult.ok ms) ∧
    (VariantA.startVariationPractice VariantA.initialSession "op1" "v1"
        FetchResult.httpError).currentMoves = [] := by
  constructor
  · intro ms h
    cases h
  · exact (C1_fetchFailureLeavesFreeplayDrops toyOracle VariantA.initialSession
      "op1" "v1" FetchResult.httpError (fun _ h => by cases h) _ rfl).1

/-- C2, counterexample: `startVariationPractice(A)` then
`startVariationPractice(B)`, with B's fetch resolving first and A's stale
fetch resolving last, leaves A's moves in the session (paired with B's
variation name): the stale result overwrites the later invocation. -/
theorem C2_counterexample :
    (VariantA.overlappedStart VariantA.initialSession "opA" "vA"
        (FetchResult.ok ["e4"]) "opB" "vB" (FetchResult.ok ["d4"])).currentVariationName
      = some "vB" ∧
    (VariantA.overlappedStart VariantA.initialSession "opA" "vA"
        (FetchResult.ok ["e4"]) "opB" "vB" (FetchResult.ok ["d4"])).currentMoves
      = ["e4"] ∧
    (["e4"] : List String) ≠ ["d4"] := by
  decide

/-- C2 (amended): with overlapping invocations `startVariationPractice(A)`
then `startVariationPractice(B)`, the synchronous parts leave B's
`openingId`/`variationName`, but there is no request token, so the moves
list is whatever the last-resolving fetch delivered: when A's stale fetch
resolves after B's, the session ends with A's moves, not B's. -/
theorem C2_staleFetchOverwrites (s : VariantA.Session) (idA vnA idB vnB : String)
    (movesA movesB : List String) :
    (VariantA.overlappedStart s idA vnA (FetchResult.ok movesA) idB vnB
        (FetchResult.ok movesB)).currentOpeningId = some idB ∧
    (VariantA.overlappedStart s idA vnA (FetchResult.ok movesA) idB vnB
        (FetchResult.ok movesB)).currentVariationName = some vnB ∧
    (VariantA.overlappedStart s idA vnA (FetchResult.ok movesA) idB vnB
        (FetchResult.ok movesB)).currentMoves = movesA :=
  ⟨rfl, rfl, rfl⟩

/-- C3: in the `part_003` variant the wrong-move branch issues a snapback,
sets `wrongMove`, and keeps `currentIndex`, but never reverts the engine:
after the legal-but-wrong drop d2-d4 against expected `e4`, the `chess.js`
position is the post-d4 FEN, not the pre-attempt FEN.  The `part_002`
variant at the same input does revert the engine to the pre-attempt FEN. -/
theorem C3_wrongMoveNoEngineRevert :
    (VariantB.handlePieceDrop toyOracle
        { VariantB.initialSession with currentMoves := ["e4"] } "d2" "d4").1
      = Directive.snapback ∧
    (VariantB.handlePieceDrop toyOracle
        { VariantB.initialSession with currentMoves := ["e4"] } "d2" "d4").2.wrongMove
      = true ∧
    (VariantB.handlePieceDrop toyOracle
        { VariantB.initialSession with currentMoves := ["e4"] } "d2" "d4").2.currentIndex
      = 0 ∧
    ({ VariantB.initialSession with
        currentMoves := ["e4"] } : VariantB.Session).game.fen = startFen ∧
    (VariantB.handlePieceDrop toyOracle
        { VariantB.initialSession with currentMoves := ["e4"] } "d2" "d4").2.game.fen
      = fenD4 ∧
    fenD4 ≠ startFen ∧
    (VariantA.handlePieceDrop toyOracle
        { VariantA.initialSession with currentMoves := ["e4"] } "d2" "d4").1
      = Directive.snapback ∧
    (VariantA.handlePieceDrop toyOracle
        { VariantA.initialSession with currentMoves := ["e4"] } "d2" "d4").2.wrongMove
      = true ∧
    (VariantA.handlePieceDrop toyOracle
        { VariantA.initialSession with currentMoves := ["e4"] } "d2" "d4").2.currentIndex
      = 0 ∧
    (VariantA.handlePieceDrop toyOracle
        { VariantA.initialSession with currentMoves := ["e4"] } "d2" "d4").2.game.fen
      = startFen := by
  decide

/-- C4: in the `part_003` variant, with the variation completed
(`currentIndex = len(moves)`), a legal drop is snapped back and the index
kept, but the engine is NOT restored: the attempted move stays applied
(post-e5 FEN instead of the pre-attempt post-e4 FEN).  The `part_002`
variant rejects the drop before touching the engine. -/
theorem C4_completionGuardNoRestore :
    (VariantB.handlePieceDrop toyOracle
        { VariantB.initialSession with
          currentMoves := ["e4"], currentIndex := 1,
          game := { fen := fenE4, history := [startFen] }, lastFen := fenE4,
          boardPosition := fenE4 } "e7" "e5").1 = Directive.snapback ∧
    (VariantB.handlePieceDrop toyOracle
        { VariantB.initialSession with
          currentMoves := ["e4"], currentIndex := 1,
          game := { fen := fenE4, history := [startFen] }, lastFen := fenE4,
          boardPosition := fenE4 } "e7" "e5").2.currentIndex = 1 ∧
    (VariantB.handlePieceDrop toyOracle
        { VariantB.initialSession with
          currentMoves := ["e4"], currentIndex := 1,
          game := { fen := fenE4, history := [startFen] }, lastFen := fenE4,
          boardPosition := fenE4 } "e7" "e5").2.game.fen = fenE4E5 ∧
    fenE4E5 ≠ fenE4 ∧
    (VariantA.handlePieceDrop toyOracle
        { VariantA.initialSession with
          currentMoves := ["e4"], currentIndex := 1,
          game := { fen := fenE4, history := [startFen] }, lastFen := fenE4,
          lastFenIndex := 1, boardPosition := fenE4 } "e7" "e5").1
      = Directive.snapback ∧
    (VariantA.handlePieceDrop toyOracle
        { VariantA.initialSession with
          currentMoves := ["e4"], currentIndex := 1,
          game := { fen := fenE4, history := [startFen] }, lastFen := fenE4,
          lastFenIndex := 1, boardPosition := fenE4 } "e7" "e5").2.currentIndex = 1 ∧
    (VariantA.handlePieceDrop toyOracle
        { VariantA.initialSession with
          currentMoves := ["e4"], currentIndex := 1,
          game := { fen := fenE4, history := [startFen] }, lastFen := fenE4,
          lastFenIndex := 1, boardPosition := fenE4 } "e7" "e5").2.game.fen = fenE4 := by
  decide

/-- C5, counterexample: in `part_002`, a successful `handleNextMove` from a
reachable state (one wrong attempt already reverted, `wrongMove = true`)
increments `currentIndex` but leaves `wrongMove` true, `lastFen` at
`"start"` (not the oracle's new position), and `lastFenIndex` at 0 (not the
new index), contrary to the claim. -/
theorem C5_counterexample :
    (VariantA.handleNextMove toyOracle
        { VariantA.initialSession with
          currentMoves := ["e4"], wrongMove := true }).currentIndex = 1 ∧
    (VariantA.handleNextMove toyOracle
        { VariantA.initialSession with
          currentMoves := ["e4"], wrongMove := true }).game.fen = fenE4 ∧
    (VariantA.handleNextMove toyOracle
        { VariantA.initialSession with
          currentMoves := ["e4"], wrongMove := true }).wrongMove = true ∧
    (VariantA.handleNextMove toyOracle
        { VariantA.initialSession with
          currentMoves := ["e4"], wrongMove := true }).lastFen = "start" ∧
    "start" ≠ fenE4 ∧
    (VariantA.handleNextMove toyOracle
        { VariantA.initialSession with
          currentMoves := ["e4"], wrongMove := true }).lastFenIndex = 0 := by
  decide

/-- C5 (amended): when stepForward succeeds in applying
`moves[progressIndex]`, it increments `progressIndex` by one and shows the
oracle's new position; in the `part_002` variant it leaves
`lastGoodPosition` (`lastFen`), `lastGoodIndex` (`lastFenIndex`), and
`wrongMoveFlag` unchanged, while the `part_003` variant captures the new
position into `lastFen` and clears `wrongMove` (it has no `lastFenIndex`). -/
theorem C5_stepForwardFrame (o : Oracle) (s : VariantA.Session)
    (t : VariantB.Session) (gA gB : Game)
    (hA : s.currentIndex < s.currentMoves.length)
    (hA2 : Game.moveSan o s.game (s.currentMoves.getD s.currentIndex "") = some gA)
    (hB : t.currentIndex < t.currentMoves.length)
    (hB2 : Game.moveSan o t.game (t.currentMoves.getD t.currentIndex "") = some gB) :
    VariantA.handleNextMove o s =
      { s with
        game := gA, boardPosition := gA.fen,
        currentIndex := s.currentIndex + 1,
        feedback := "Forward move: " ++ s.currentMoves.getD s.currentIndex "" } ∧
    VariantB.handleNextMove o t =
      { t with
        game := gB, boardPosition := gB.fen,
        currentIndex := t.currentIndex + 1,
        feedback := "Forward move: " ++ t.currentMoves.getD t.currentIndex "",
        wrongMove := false, lastFen := gB.fen } := by
  constructor
  · have h0 : ¬ s.currentMoves.length = 0 := by omega
    have h1 : ¬ s.currentMoves.length ≤ s.currentIndex := by omega
    unfold VariantA.handleNextMove
    rw [if_neg h0, if_neg h1]
    simp only [hA2]
  · have h0 : ¬ t.currentMoves.length = 0 := by omega
    unfold VariantB.handleNextMove
    rw [if_neg h0, if_pos hB]
    simp only [hB2]

/-- C5, witness: the frame theorem applied to a one-move variation. -/
theorem C5_witness :
    (VariantA.handleNextMove toyOracle
        { VariantA.initialSession with currentMoves := ["e4"] }).lastFenIndex = 0 ∧
    (VariantB.handleNextMove toyOracle
        { VariantB.initialSession with currentMoves := ["e4"] }).wrongMove = false := by
  have h := C5_stepForwardFrame toyOracle
    { VariantA.initialSession with currentMoves := ["e4"] }
    { VariantB.initialSession with currentMoves := ["e4"] }
    { fen := fenE4, history := [startFen] } { fen := fenE4, history := [startFen] }
    (by decide) (by decide) (by decide) (by decide)
  rw [h.1, h.2]
  exact ⟨rfl, rfl⟩

/-- C6: in the `part_003` variant `handleNextMove` never checks the engine
result: on a stored SAN the oracle rejects (`zz` from the initial
position), it still increments `currentIndex` to 1 and reports the
success feedback, with the engine unchanged.  The `part_002` variant at
the same input leaves `currentIndex` at 0 and reports an error. -/
theorem C6_uncheckedStepForward :
    Game.moveSan toyOracle Game.reset "zz" = none ∧
    (VariantB.handleNextMove toyOracle
        { VariantB.initialSession with currentMoves := ["zz"] }).currentIndex = 1 ∧
    (VariantB.handleNextMove toyOracle
        { VariantB.initialSession with currentMoves := ["zz"] }).game = Game.reset ∧
    (VariantB.handleNextMove toyOracle
        { VariantB.initialSession with currentMoves := ["zz"] }).feedback
      = "Forward move: zz" ∧
    (VariantA.handleNextMove toyOracle
        { VariantA.initialSession with currentMoves := ["zz"] }).currentIndex = 0 ∧
    (VariantA.handleNextMove toyOracle
        { VariantA.initialSession with currentMoves := ["zz"] }).game = Game.reset ∧
    (VariantA.handleNextMove toyOracle
        { VariantA.initialSession with currentMoves := ["zz"] }).feedback
      = "Invalid move sequence? Could not apply next move." := by
  decide

/-- C7: `handleResetToLastPosition` of `part_002`: with `lastFenIndex > 0`
it loads `lastFen` into the engine, sets `currentIndex := lastFenIndex`,
and clears `wrongMove`; with `lastFenIndex = 0` it degrades to a full
reset (engine and board to the initial position, index 0, `wrongMove`
cleared), agreeing with `handleResetBoard` on the engine and board. -/
theorem C7_resetToLastGood (s : VariantA.Session) :
    (0 < s.lastFenIndex →
      VariantA.handleResetToLastPosition s =
        { s with
          game := Game.load s.game s.lastFen, boardPosition := s.lastFen,
          currentIndex := s.lastFenIndex, wrongMove := false,
          feedback := "Reset to last correct move." }) ∧
    (s.lastFenIndex = 0 →
      VariantA.handleResetToLastPosition s =
        { s with
          game := Game.reset, boardPosition := "start", currentIndex := 0,
          wrongMove := false,
          feedback := "No correct move to reset to. Board reset to start." } ∧
      (VariantA.handleResetToLastPosition s).game = (VariantA.handleResetBoard s).game ∧
      (VariantA.handleResetToLastPosition s).boardPosition
        = (VariantA.handleResetBoard s).boardPosition) := by
  constructor
  · intro h
    unfold VariantA.handleResetToLastPosition
    rw [if_neg (by omega)]
  · intro h
    have h1 : VariantA.handleResetToLastPosition s =
        { s with
          game := Game.reset, boardPosition := "start", currentIndex := 0,
          wrongMove := false,
          feedback := "No correct move to reset to. Board reset to start." } := by
      unfold VariantA.handleResetToLastPosition
      rw [if_pos h]
    refine ⟨h1, ?_, ?_⟩
    · rw [h1]
      unfold VariantA.handleResetBoard
      split <;> rfl
    · rw [h1]
      unfold VariantA.handleResetBoard
      split <;> rfl

/-- C7, witness: both branches at concrete sessions. -/
theorem C7_witness :
    (VariantA.handleResetToLastPosition
        { VariantA.initialSession with
          currentMoves := ["e4"], wrongMove := true }).currentIndex = 0 ∧
    (VariantA.handleResetToLastPosition
        { VariantA.initialSession with
          currentMoves := ["e4"], currentIndex := 1, wrongMove := true,
          lastFen := fenE4, lastFenIndex := 1,
          game := { fen := fenD4, history := [fenE4, startFen] } }).currentIndex
      = 1 := by
  have h1 := (C7_resetToLastGood
    { VariantA.initialSession with currentMoves := ["e4"], wrongMove := true }).2 rfl
  have h2 := (C7_resetToLastGood
    { VariantA.initialSession with
      currentMoves := ["e4"], currentIndex := 1, wrongMove := true,
      lastFen := fenE4, lastFenIndex := 1,
      game := { fen := fenD4, history := [fenE4, startFen] } }).1 (by decide)
  rw [h1.1, h2]
  exact ⟨rfl, rfl⟩

/-- C8: `enterFreeplayMode` in both variants forces every session field to
a fixed value — empty moves, index 0, `wrongMove` false, identities unset,
`lastFen`/`lastFenIndex` at the initial position/0, engine reset — so it
is idempotent. -/
theorem C8_enterFreeplayIdempotent (s : VariantA.Session) (t : VariantB.Session) :
    (VariantA.enterFreeplayMode s).currentMoves = [] ∧
    (VariantA.enterFreeplayMode s).currentIndex = 0 ∧
    (VariantA.enterFreeplayMode s).wrongMove = false ∧
    (VariantA.enterFreeplayMode s).currentOpeningId = none ∧
    (VariantA.enterFreeplayMode s).currentVariationName = none ∧
    (VariantA.enterFreeplayMode s).lastFen = "start" ∧
    (VariantA.enterFreeplayMode s).lastFenIndex = 0 ∧
    (VariantA.enterFreeplayMode s).game = Game.reset ∧
    (VariantA.enterFreeplayMode s).boardPosition = "start" ∧
    VariantA.enterFreeplayMode (VariantA.enterFreeplayMode s)
      = VariantA.enterFreeplayMode s ∧
    (VariantB.enterFreeplayMode t).currentMoves = [] ∧
    (VariantB.enterFreeplayMode t).currentIndex = 0 ∧
    (VariantB.enterFreeplayMode t).wrongMove = false ∧
    (VariantB.enterFreeplayMode t).currentOpeningId = none ∧
    (VariantB.enterFreeplayMode t).currentVariationName = none ∧
    (VariantB.enterFreeplayMode t).lastFen = "start" ∧
    (VariantB.enterFreeplayMode t).game = Game.reset ∧
    VariantB.enterFreeplayMode (VariantB.enterFreeplayMode t)
      = VariantB.enterFreeplayMode t :=
  ⟨rfl, rfl, rfl, rfl, rfl, rfl, rfl, rfl, rfl, rfl, rfl, rfl, rfl, rfl, rfl, rfl,
   rfl, rfl⟩

/-- C9, counterexample: a reachable interleaving breaks the invariant.
`startVariationPractice(A)` begins, `startVariationPractice(B)` begins,
A's (stale) fetch resolves with one move, the user plays that move
correctly (`currentIndex = 1`), then B's fetch resolves with an empty
array: the final state has `currentIndex = 1 > 0 = len(moves)`. -/
theorem C9_counterexample :
    let s1 := VariantA.startVariationPracticeBegin VariantA.initialSession "opA" "vA"
    let s2 := VariantA.startVariationPracticeBegin s1 "opB" "vB"
    let s3 := VariantA.startVariationPracticeComplete s2 (FetchResult.ok ["e4"])
    let s4 := (VariantA.handlePieceDrop toyOracle s3 "e2" "e4").2
    let s5 := VariantA.startVariationPracticeComplete s4 (FetchResult.ok [])
    s4.currentIndex = 1 ∧ s5.currentIndex = 1 ∧ s5.currentMoves.length = 0 ∧
    ¬ s5.currentIndex ≤ s5.currentMoves.length := by
  decide

/-- C9 (amended): every synchronous session operation of both variants
preserves `progressIndex ≤ len(moves)` (for `part_002` jointly with
`lastFenIndex ≤ len(moves)`), and a non-overlapped `startVariationPractice`
establishes it from any state; the invariant can still be broken by a
stale completion of an overlapping variation load. -/
theorem C9_invariantPreserved (o : Oracle) (s : VariantA.Session)
    (t : VariantB.Session) (hs : VariantA.Inv s) (ht : VariantB.Inv t)
    (source target opId vn : String) (r : FetchResult) :
    VariantA.Inv (VariantA.handlePieceDrop o s source target).2 ∧
    VariantA.Inv (VariantA.handleNextMove o s) ∧
    VariantA.Inv (VariantA.handlePrevMove s) ∧
    VariantA.Inv (VariantA.handleResetBoard s) ∧
    VariantA.Inv (VariantA.handleResetToLastPosition s) ∧
    VariantA.Inv (VariantA.enterFreeplayMode s) ∧
    VariantA.Inv (VariantA.startVariationPractice s opId vn r) ∧
    VariantB.Inv (VariantB.handlePieceDrop o t source target).2 ∧
    VariantB.Inv (VariantB.handleNextMove o t) ∧
    VariantB.Inv (VariantB.handlePrevMove t) ∧
    VariantB.Inv (VariantB.handleResetBoard t) ∧
    VariantB.Inv (VariantB.handleResetToLastPosition t) ∧
    VariantB.Inv (VariantB.enterFreeplayMode t) ∧
    VariantB.Inv (VariantB.startVariationPractice t opId vn r) := by
  obtain ⟨hs1, hs2⟩ := hs
  have ht1 : t.currentIndex ≤ t.currentMoves.length := ht
  have hdropA : VariantA.Inv (VariantA.handlePieceDrop o s source target).2 := by
    unfold VariantA.Inv VariantA.handlePieceDrop
    repeat' split
    all_goals try simp
    all_goals try omega
    all_goals split
    all_goals try simp
    all_goals omega
  have hnextA : VariantA.Inv (VariantA.handleNextMove o s) := by
    unfold VariantA.Inv VariantA.handleNextMove
    repeat' split
    all_goals try simp
    all_goals try omega
    all_goals split
    all_goals try simp
    all_goals omega
  have hprevA : VariantA.Inv (VariantA.handlePrevMove s) := by
    unfold VariantA.Inv VariantA.handlePrevMove
    repeat' split
    all_goals try simp
    all_goals omega
  have hresetA : VariantA.Inv (VariantA.handleResetBoard s) := by
    unfold VariantA.Inv VariantA.handleResetBoard
    repeat' split
    all_goals try simp
    all_goals omega
  have hlastA : VariantA.Inv (VariantA.handleResetToLastPosition s) := by
    unfold VariantA.Inv VariantA.handleResetToLastPosition
    repeat' split
    all_goals try simp
    all_goals omega
  have hfreeA : VariantA.Inv (VariantA.enterFreeplayMode s) := by
    unfold VariantA.Inv VariantA.enterFreeplayMode
    simp
  have hstartA : VariantA.Inv (VariantA.startVariationPractice s opId vn r) := by
    unfold VariantA.Inv VariantA.startVariationPractice
      VariantA.startVariationPracticeBegin VariantA.startVariationPracticeComplete
    repeat' split
    all_goals simp
  have hdropB : VariantB.Inv (VariantB.handlePieceDrop o t source target).2 := by
    unfold VariantB.Inv VariantB.handlePieceDrop
    repeat' split
    all_goals try simp
    all_goals try omega
    all_goals split
    all_goals try simp
    all_goals try omega
    rename_i hc
    obtain ⟨mv, hmv, -⟩ := hc
    have hlt : t.currentIndex < t.currentMoves.length := by
      by_contra hn
      rw [List.getElem?_eq_none (by omega)] at hmv
      cases hmv
    omega
  have hnextB : VariantB.Inv (VariantB.handleNextMove o t) := by
    unfold VariantB.Inv VariantB.handleNextMove
    repeat' split
    all_goals try simp
    all_goals omega
  have hprevB : VariantB.Inv (VariantB.handlePrevMove t) := by
    unfold VariantB.Inv VariantB.handlePrevMove
    repeat' split
    all_goals try simp
    all_goals omega
  have hresetB : VariantB.Inv (VariantB.handleResetBoard t) := by
    unfold VariantB.Inv VariantB.handleResetBoard
    repeat' split
    all_goals try simp
    all_goals omega
  have hlastB : VariantB.Inv (VariantB.handleResetToLastPosition t) := by
    unfold VariantB.Inv VariantB.handleResetToLastPosition
    simp
    omega
  have hfreeB : VariantB.Inv (VariantB.enterFreeplayMode t) := by
    unfold VariantB.Inv VariantB.enterFreeplayMode
    simp
  have hstartB : VariantB.Inv (VariantB.startVariationPractice t opId vn r) := by
    unfold VariantB.Inv VariantB.startVariationPractice
      VariantB.startVariationPracticeBegin VariantB.startVariationPracticeComplete
    repeat' split
    all_goals simp
  exact ⟨hdropA, hnextA, hprevA, hresetA, hlastA, hfreeA, hstartA,
    hdropB, hnextB, hprevB, hresetB, hlastB, hfreeB, hstartB⟩

/-- C9, witness: the preservation theorem applied at the initial state. -/
theorem C9_witness :
    VariantA.Inv VariantA.initialSession ∧
    VariantA.Inv (VariantA.handleNextMove toyOracle VariantA.initialSession) := by
  refine ⟨by decide, ?_⟩
  exact (C9_invariantPreserved toyOracle VariantA.initialSession
    VariantB.initialSession (by decide) (by decide) "e2" "e4" "op" "v"
    (FetchResult.ok ["e4"])).2.1

/-- C10: `handleResetBoard` with a non-empty moves list (both variants)
resets the progress fields (engine, board, `lastFen`, index, `wrongMove`,
and in `part_002` `lastFenIndex`) but leaves `currentOpeningId`,
`currentVariationName`, and `currentMoves` exactly as before. -/
theorem C10_resetBoardFrame (s : VariantA.Session) (t : VariantB.Session)
    (hs : 0 < s.currentMoves.length) (ht : 0 < t.currentMoves.length) :
    VariantA.handleResetBoard s =
      { s with
        game := Game.reset, boardPosition := "start", lastFen := "start",
        lastFenIndex := 0, wrongMove := false, currentIndex := 0,
        feedback := "Board reset for this variation. Move #1." } ∧
    (VariantA.handleResetBoard s).currentOpeningId = s.currentOpeningId ∧
    (VariantA.handleResetBoard s).currentVariationName = s.currentVariationName ∧
    (VariantA.handleResetBoard s).currentMoves = s.currentMoves ∧
    VariantB.handleResetBoard t =
      { t with
        game := Game.reset, boardPosition := "start", lastFen := "start",
        wrongMove := false, currentIndex := 0,
        feedback := "Board reset for this opening. Move #1." } ∧
    (VariantB.handleResetBoard t).currentOpeningId = t.currentOpeningId ∧
    (VariantB.handleResetBoard t).currentVariationName = t.currentVariationName ∧
    (VariantB.handleResetBoard t).currentMoves = t.currentMoves := by
  have hA : VariantA.handleResetBoard s =
      { s with
        game := Game.reset, boardPosition := "start", lastFen := "start",
        lastFenIndex := 0, wrongMove := false, currentIndex := 0,
        feedback := "Board reset for this variation. Move #1." } := by
    unfold VariantA.handleResetBoard
    rw [if_pos hs]
  have hB : VariantB.handleResetBoard t =
      { t with
        game := Game.reset, boardPosition := "start", lastFen := "start",
        wrongMove := false, currentIndex := 0,
        feedback := "Board reset for this opening. Move #1." } := by
    unfold VariantB.handleResetBoard
    rw [if_pos ht]
  exact ⟨hA, by rw [hA], by rw [hA], by rw [hA], hB, by rw [hB], by rw [hB],
    by rw [hB]⟩

/-- C10, witness: the frame theorem at a concrete mid-practice session. -/
theorem C10_witness :
    0 < (["e4"] : List String).length ∧
    (VariantA.handleResetBoard
        { VariantA.initialSession with
          currentMoves := ["e4"], currentIndex := 1,
          currentVariationName := some "v1" }).currentMoves = ["e4"] ∧
    (VariantA.handleResetBoard
        { VariantA.initialSession with
          currentMoves := ["e4"], currentIndex := 1,
          currentVariationName := some "v1" }).currentVariationName = some "v1" := by
  have h := C10_resetBoardFrame
    { VariantA.initialSession with
      currentMoves := ["e4"], currentIndex := 1,
      currentVariationName := some "v1" }
    { VariantB.initialSession with currentMoves := ["e4"] }
    (by decide) (by decide)
  refine ⟨by decide, ?_, ?_⟩
  · rw [h.2.2.2.1]
  · rw [h.2.2.1]

end ChessWiz
